import Mathlib

/-!
Verification of the dispatcher console's client-side call-state
reconciliation (`handleEvent` in `src/frontend/src/App.tsx`) and the
staggered transcript-reveal state machine (`CallDetailDrawer`).

The embedding follows the TypeScript source:
* `TranscriptMessage`, `Call` from `src/frontend/src/types.ts`
  (the variant with `pin : { lat, lng }` used by the SSE client);
* `SSEEvent` from the API client module (the union with the four
  variants `call_created`, `new_message`, `transcript_update`,
  `summary_update`);
* `handleEvent` from `App.tsx` — modelled as a function from an event
  and the previous `calls` array to the next `calls` array (the
  `setCalls` updater).  The `selectedCall` mirror state applies the
  same per-call transformation and is not modelled separately;
* `observeCall` / `revealTick` from `CallDetailDrawer.tsx`: the two
  effects driving `visibleCount`.

Geographic coordinates are JavaScript numbers in the source; the claims
only store, copy and compare them, so they are modelled as `Int`.
-/

namespace Dispatch

/-- `sender: "caller" | "ai"` — closed two-element set. -/
inductive Sender where
  | caller
  | ai
deriving DecidableEq, Repr

/-- One utterance, from `types.ts` (`TranscriptMessage`). -/
structure TranscriptMessage where
  sender : Sender
  text : String
  time : String
  callerName : Option String
deriving DecidableEq, Repr

/-- `pin: { lat: number; lng: number }`. -/
structure Pin where
  lat : Int
  lng : Int
deriving DecidableEq, Repr

/-- One tracked call, from `types.ts` (`Call`). -/
structure Call where
  id : String
  numberMasked : String
  priority : String
  incidentType : String
  incidentIcon : String
  status : String
  statusDetail : Option String
  locationLabel : String
  address : String
  city : String
  confidence : Int
  inServiceArea : Bool
  transcript : List TranscriptMessage
  summary : String
  keyFacts : List String
  elapsed : String
  aiHandling : Bool
  pin : Pin
deriving DecidableEq, Repr

/-- The discriminated SSE event union (`SSEEvent`).  Optional payload
fields (`priority?`, …) are `Option`s: `none` models the key being
absent or `null` (the source tests `!= null`). -/
inductive SSEEvent where
  | call_created (call : Call)
  | new_message (call_id : String) (message : TranscriptMessage)
  | transcript_update (call_id : String) (transcript : List TranscriptMessage)
      (status : String) (aiHandling : Bool)
      (priority : Option String) (incidentType : Option String)
      (locationLabel : Option String) (pin : Option Pin)
      (confidence : Option Int)
  | summary_update (call_id : String) (summary : String)
deriving DecidableEq, Repr

/-- `{ ...c, ...ev.call }` for a duplicate `call_created`: the event's
call is a complete `Call` record, so every field of `c` is overwritten
by the corresponding field of `e`. -/
def mergeCall (c e : Call) : Call :=
  { id := e.id
    numberMasked := e.numberMasked
    priority := e.priority
    incidentType := e.incidentType
    incidentIcon := e.incidentIcon
    status := e.status
    statusDetail := e.statusDetail
    locationLabel := e.locationLabel
    address := e.address
    city := e.city
    confidence := e.confidence
    inServiceArea := e.inServiceArea
    transcript := e.transcript
    summary := e.summary
    keyFacts := e.keyFacts
    elapsed := e.elapsed
    aiHandling := e.aiHandling
    pin := e.pin }

/-- The `update` object built in the `transcript_update` branch of
`handleEvent`, spread onto a matching call: `transcript`, `status` and
`aiHandling` are always written; `priority`, `incidentType` and
`locationLabel` only when non-null, with `locationLabel` also written
into `address`.  The event's `pin` and `confidence` fields are not read
by the source, hence do not appear here. -/
def transcriptPatch (c : Call) (transcript : List TranscriptMessage)
    (status : String) (aiHandling : Bool)
    (priority incidentType locationLabel : Option String) : Call :=
  let c1 := { c with transcript := transcript, status := status,
                     aiHandling := aiHandling }
  let c2 := match priority with
    | some p => { c1 with priority := p }
    | none => c1
  let c3 := match incidentType with
    | some t => { c2 with incidentType := t }
    | none => c2
  match locationLabel with
  | some l => { c3 with locationLabel := l, address := l }
  | none => c3

/-- `handleEvent` from `App.tsx`, as a transition on the `calls` array.
The source has branches for `call_created`, `new_message` and
`transcript_update`; a `summary_update` event matches none of them and
falls through, leaving the state untouched. -/
def handleEvent (ev : SSEEvent) (prev : List Call) : List Call :=
  match ev with
  | .call_created call =>
      if prev.any (fun c => c.id = call.id) then
        prev.map (fun c => if c.id = call.id then mergeCall c call else c)
      else
        call :: prev
  | .new_message call_id message =>
      prev.map (fun c =>
        if c.id ≠ call_id then c
        else if c.transcript.length = 0 then c
        else { c with transcript := c.transcript ++ [message] })
  | .transcript_update call_id transcript status aiHandling priority
      incidentType locationLabel _pin _confidence =>
      prev.map (fun c =>
        if c.id = call_id then
          transcriptPatch c transcript status aiHandling priority
            incidentType locationLabel
        else c)
  | .summary_update _ _ => prev

/-- Per-open-call reveal state of `CallDetailDrawer`: the
`visibleCount` React state plus the two refs. -/
structure RevealState where
  visibleCount : Nat
  prevCallId : Option String
  prevTranscriptLen : Nat
deriving DecidableEq, Repr

/-- `transcript[0]?.sender ?? null`. -/
def firstSender (t : List TranscriptMessage) : Option Sender :=
  t.head?.map TranscriptMessage.sender

/-- The replacement-detection condition of the first drawer effect:
`transcript.length >= 2 && firstSender === "ai" && visibleCount === 1
&& prevLen === 1`, where `prevLen` is the ref value recorded before
this run of the effect. -/
def introReplaceCond (s : RevealState) (call : Call) : Prop :=
  2 ≤ call.transcript.length ∧
  firstSender call.transcript = some Sender.ai ∧
  s.visibleCount = 1 ∧
  s.prevTranscriptLen = 1

instance (s : RevealState) (call : Call) : Decidable (introReplaceCond s call) := by
  unfold introReplaceCond
  infer_instance

/-- The first drawer effect, run when the observed call or its
transcript changes: on a call switch, show everything at once;
otherwise update the length ref and reset `visibleCount` to 0 exactly
when `introReplaceCond` fires. -/
def observeCall (s : RevealState) (call : Call) : RevealState :=
  if s.prevCallId ≠ some call.id then
    { visibleCount := call.transcript.length
      prevCallId := some call.id
      prevTranscriptLen := call.transcript.length }
  else if introReplaceCond s call then
    { visibleCount := 0
      prevCallId := some call.id
      prevTranscriptLen := call.transcript.length }
  else
    { s with prevCallId := some call.id
             prevTranscriptLen := call.transcript.length }

/-- One tick of the stagger-reveal interval: the effect early-returns
when `transcript.length <= visibleCount` (no interval is running);
otherwise `visibleCount` becomes `min (visibleCount + 1) length`. -/
def revealTick (s : RevealState) (len : Nat) : RevealState :=
  if len ≤ s.visibleCount then s
  else { s with visibleCount := min (s.visibleCount + 1) len }

/-- `transcript.slice(0, visibleCount)`. -/
def visibleSlice (s : RevealState) (t : List TranscriptMessage) :
    List TranscriptMessage :=
  t.take s.visibleCount

/-! ### Concrete sample data for scenario checks -/

/-- A caller utterance. -/
def mCaller : TranscriptMessage :=
  { sender := Sender.caller, text := "There is a fire on 5th Ave",
    time := "00:01", callerName := none }

/-- The collaborator-side intro utterance. -/
def mAi : TranscriptMessage :=
  { sender := Sender.ai, text := "911, what is your emergency?",
    time := "00:00", callerName := none }

/-- A fully populated call record with the given id and transcript. -/
def mkCall (i : String) (t : List TranscriptMessage) : Call :=
  { id := i
    numberMasked := "(206) 555-0123"
    priority := "P1"
    incidentType := "Fire"
    incidentIcon := "flame"
    status := "Active"
    statusDetail := none
    locationLabel := "5th Ave"
    address := "5th Ave"
    city := "Seattle"
    confidence := 80
    inServiceArea := true
    transcript := t
    summary := "initial summary"
    keyFacts := []
    elapsed := "0:10"
    aiHandling := true
    pin := { lat := 47, lng := -122 } }

/-! ### Helper lemmas -/

/-- The `transcript_update` patch never touches `id`. -/
theorem transcriptPatch_id (c : Call) (t : List TranscriptMessage)
    (st : String) (ai : Bool) (pr it ll : Option String) :
    (transcriptPatch c t st ai pr it ll).id = c.id := by
  unfold transcriptPatch
  cases pr <;> cases it <;> cases ll <;> rfl

/-- Closed form of the `transcript_update` patch: the always-written
fields, plus `getD`-style conditional patching of the optional ones,
with `address` following `locationLabel`. -/
theorem transcriptPatch_eq (c : Call) (t : List TranscriptMessage)
    (st : String) (ai : Bool) (pr it ll : Option String) :
    transcriptPatch c t st ai pr it ll =
      { c with transcript := t, status := st, aiHandling := ai,
               priority := pr.getD c.priority,
               incidentType := it.getD c.incidentType,
               locationLabel := ll.getD c.locationLabel,
               address := ll.getD c.address } := by
  unfold transcriptPatch
  cases pr <;> cases it <;> cases ll <;> rfl

/-- A list is pointwise related to its image under a map. -/
theorem forall₂_self_map {α : Type} (R : α → α → Prop) (f : α → α)
    (l : List α) (h : ∀ a ∈ l, R a (f a)) :
    List.Forall₂ R l (l.map f) := by
  induction l with
  | nil => exact List.Forall₂.nil
  | cons a l ih =>
      exact List.Forall₂.cons (h a (by simp))
        (ih fun b hb => h b (by simp [hb]))

/-! ### Claims about the store reconciliation -/

/-- Claim C1: for every call in the store, a `new_message` event
appends the message at the end of the matching call's transcript when
that transcript is non-empty, and leaves the call unchanged (the event
is silently dropped) when the transcript is empty. -/
theorem newMessage_append_gated (prev : List Call) (cid : String)
    (msg : TranscriptMessage) :
    handleEvent (SSEEvent.new_message cid msg) prev =
      prev.map (fun c =>
        if c.id = cid ∧ c.transcript ≠ [] then
          { c with transcript := c.transcript ++ [msg] }
        else c) := by
  simp only [handleEvent]
  refine List.map_congr_left ?_
  intro c _
  by_cases h1 : c.id = cid
  · by_cases h2 : c.transcript = []
    · simp [h1, h2]
    · simp [h1, h2, List.length_eq_zero]
  · simp [h1]

/-- Claim C4: `call_created` is an idempotent upsert — applying the
same creation event twice, from any store state, yields the same list
(value and order) as applying it once. -/
theorem callCreated_idempotent (prev : List Call) (call : Call) :
    handleEvent (SSEEvent.call_created call)
        (handleEvent (SSEEvent.call_created call) prev) =
      handleEvent (SSEEvent.call_created call) prev := by
  simp only [handleEvent]
  by_cases h : prev.any (fun c => c.id = call.id)
  · rw [if_pos h]
    obtain ⟨c0, hc0, hid0⟩ :
        ∃ c ∈ prev, c.id = call.id := by simpa [List.any_eq_true] using h
    have hany2 :
        (prev.map (fun c => if c.id = call.id then mergeCall c call else c)).any
          (fun c => c.id = call.id) = true := by
      refine List.any_eq_true.mpr
        ⟨_, List.mem_map_of_mem _ hc0, ?_⟩
      simp [hid0, mergeCall]
    rw [if_pos hany2, List.map_map]
    refine List.map_congr_left ?_
    intro c _
    by_cases hc : c.id = call.id
    · simp [Function.comp, hc, mergeCall]
    · simp [Function.comp, hc]
  · rw [if_neg h]
    have hany2 : ((call :: prev).any (fun c => c.id = call.id)) = true := by
      simp
    rw [if_pos hany2, List.map_cons]
    have h1 : (if call.id = call.id then mergeCall call call else call) = call := by
      simp [mergeCall]
    rw [h1]
    congr 1
    have hnone : ∀ c ∈ prev, ¬ c.id = call.id := by
      simpa [List.any_eq_false] using h
    refine (List.map_congr_left ?_).trans (List.map_id prev)
    intro c hc
    simp [hnone c hc]

/-- Claim C9: events referencing an id absent from the store
(`new_message`, `transcript_update`, `summary_update`) leave the
snapshot unchanged; the transition is total, so no error is raised. -/
theorem unknown_id_noop (prev : List Call) (cid : String)
    (h : ∀ c ∈ prev, c.id ≠ cid) :
    (∀ msg, handleEvent (SSEEvent.new_message cid msg) prev = prev) ∧
    (∀ t st ai pr it ll pn cf,
        handleEvent
          (SSEEvent.transcript_update cid t st ai pr it ll pn cf) prev = prev) ∧
    (∀ s, handleEvent (SSEEvent.summary_update cid s) prev = prev) := by
  refine ⟨?_, ?_, fun s => rfl⟩
  · intro msg
    simp only [handleEvent]
    refine (List.map_congr_left ?_).trans (List.map_id prev)
    intro c hc
    simp [h c hc]
  · intro t st ai pr it ll pn cf
    simp only [handleEvent]
    refine (List.map_congr_left ?_).trans (List.map_id prev)
    intro c hc
    simp [h c hc]

/-- Claim C9 witness: a concrete one-call store with id `c1` is left
unchanged by all three event kinds carrying the unknown id `zz`. -/
theorem unknown_id_noop_witness :
    handleEvent (SSEEvent.new_message "zz" mCaller) [mkCall "c1" []] =
      [mkCall "c1" []] ∧
    handleEvent
        (SSEEvent.transcript_update "zz" [mAi] "Active" true
          none none none none none) [mkCall "c1" []] = [mkCall "c1" []] ∧
    handleEvent (SSEEvent.summary_update "zz" "s") [mkCall "c1" []] =
      [mkCall "c1" []] :=
  ⟨(unknown_id_noop [mkCall "c1" []] "zz" (by decide)).1 mCaller,
   (unknown_id_noop [mkCall "c1" []] "zz" (by decide)).2.1
     [mAi] "Active" true none none none none none,
   (unknown_id_noop [mkCall "c1" []] "zz" (by decide)).2.2 "s"⟩

/-- Claim C3 counterexample: a `transcript_update` carrying both a
`pin` and a `confidence` leaves the matching call's `pin` and
`confidence` at their old values — the handler never reads those two
event fields, so the claim's "patches each of … pin, and confidence
that is present" fails. -/
theorem transcriptUpdate_ignores_pin_confidence :
    ((handleEvent
        (SSEEvent.transcript_update "c1" [mAi, mCaller] "Active" true
          none none none (some { lat := 1, lng := 2 }) (some 99))
        [mkCall "c1" [mCaller]]).map (fun c => (c.pin, c.confidence)))
      = [({ lat := 47, lng := -122 }, 80)] ∧
    ¬ ((47 : Int) = 1) ∧ ¬ ((80 : Int) = 99) := by decide

/-- Claim C3 (amended): `transcript_update` replaces the matching
call's transcript exactly (also when shorter), always writes `status`
and `aiHandling`, patches each of `priority`, `incidentType` and
`locationLabel` that is present (also copying `locationLabel` into
`address`) and leaves omitted optional fields unchanged; the event's
`pin` and `confidence` fields are ignored and those call fields are
always left unchanged. -/
theorem transcriptUpdate_patches (prev : List Call) (cid : String)
    (t : List TranscriptMessage) (st : String) (ai : Bool)
    (pr it ll : Option String) (pn : Option Pin) (cf : Option Int) :
    handleEvent (SSEEvent.transcript_update cid t st ai pr it ll pn cf) prev =
      prev.map (fun c =>
        if c.id = cid then
          { c with transcript := t, status := st, aiHandling := ai,
                   priority := pr.getD c.priority,
                   incidentType := it.getD c.incidentType,
                   locationLabel := ll.getD c.locationLabel,
                   address := ll.getD c.address }
        else c) := by
  simp only [handleEvent]
  refine List.map_congr_left ?_
  intro c _
  by_cases hc : c.id = cid
  · simp [hc, transcriptPatch_eq]
  · simp [hc]

/-- Claim C6 counterexample: a duplicate `call_created` whose payload
carries an empty transcript overwrites the stored one-message
transcript, so transcript length is not monotone under the
`call_created` merge — the claim's sole-exception clause fails. -/
theorem callCreated_merge_shrinks_transcript :
    (handleEvent (SSEEvent.call_created (mkCall "c1" []))
        [mkCall "c1" [mCaller]]).map (fun c => c.transcript.length) = [0] ∧
    ([mkCall "c1" [mCaller]]).map (fun c => c.transcript.length) = [1] ∧
    ¬ ((1 : Nat) ≤ 0) := by decide

/-- Claim C6 (amended): stored ids survive every event in order (the
stored id sequence is a suffix of the new one: merges and field
patches keep each call's id in place, and an insert only prepends);
transcript length is non-decreasing under `new_message`, and
`summary_update` changes nothing — but both the `call_created` merge
and `transcript_update` overwrite the transcript wholesale, so length
monotonicity does not extend to them. -/
theorem event_id_and_growth (prev : List Call) (ev : SSEEvent) :
    List.IsSuffix (prev.map Call.id) ((handleEvent ev prev).map Call.id) ∧
    (∀ cid msg,
      List.Forall₂
        (fun c c' => c'.id = c.id ∧
          c.transcript.length ≤ c'.transcript.length)
        prev (handleEvent (SSEEvent.new_message cid msg) prev)) ∧
    (∀ cid s, handleEvent (SSEEvent.summary_update cid s) prev = prev) := by
  refine ⟨?_, ?_, fun cid s => rfl⟩
  · cases ev with
    | call_created call =>
        simp only [handleEvent]
        by_cases h : prev.any (fun c => c.id = call.id)
        · rw [if_pos h, List.map_map]
          have heq :
              prev.map (Call.id ∘ fun c =>
                if c.id = call.id then mergeCall c call else c) =
              prev.map Call.id := by
            refine List.map_congr_left ?_
            intro c _
            by_cases hc : c.id = call.id
            · simp [Function.comp, hc, mergeCall]
            · simp [Function.comp, hc]
          rw [heq]
        · rw [if_neg h, List.map_cons]
          exact List.suffix_cons call.id (prev.map Call.id)
    | new_message cid msg =>
        simp only [handleEvent]
        rw [List.map_map]
        have heq :
            prev.map (Call.id ∘ fun c =>
              if c.id ≠ cid then c
              else if c.transcript.length = 0 then c
              else { c with transcript := c.transcript ++ [msg] }) =
            prev.map Call.id := by
          refine List.map_congr_left ?_
          intro c _
          by_cases hc : c.id = cid
          · by_cases h2 : c.transcript.length = 0 <;> simp [Function.comp, hc, h2]
          · simp [Function.comp, hc]
        rw [heq]
    | transcript_update cid t st ai pr it ll pn cf =>
        simp only [handleEvent]
        rw [List.map_map]
        have heq :
            prev.map (Call.id ∘ fun c =>
              if c.id = cid then transcriptPatch c t st ai pr it ll else c) =
            prev.map Call.id := by
          refine List.map_congr_left ?_
          intro c _
          by_cases hc : c.id = cid <;>
            simp [Function.comp, hc, transcriptPatch_id]
        rw [heq]
    | summary_update cid s => exact List.suffix_refl _
  · intro cid msg
    simp only [handleEvent]
    refine forall₂_self_map _ _ prev ?_
    intro c _
    by_cases hc : c.id = cid
    · by_cases h2 : c.transcript.length = 0 <;> simp [hc, h2]
    · simp [hc]

/-- Claim C7 counterexample: creating `c2` then `c1` from an empty
store yields the snapshot `[c1, c2]` (new call at the front), not the
claimed `[c2, c1]`. -/
theorem creation_order_cex :
    handleEvent (SSEEvent.call_created (mkCall "c1" []))
        (handleEvent (SSEEvent.call_created (mkCall "c2" [])) []) =
      [mkCall "c1" [], mkCall "c2" []] ∧
    [mkCall "c1" [], mkCall "c2" []] ≠ [mkCall "c2" [], mkCall "c1" []] := by
  decide

/-- Claim C7 (amended): creating `c2` then `c1` from an empty store
yields the snapshot `[c1, c2]` — most-recent-first, each new call
inserted at the front of display order. -/
theorem creation_newest_first (c1 c2 : Call) (h : c1.id ≠ c2.id) :
    handleEvent (SSEEvent.call_created c1)
        (handleEvent (SSEEvent.call_created c2) []) = [c1, c2] := by
  have h2 : ¬ (c2.id = c1.id) := fun he => h he.symm
  simp [handleEvent, h2]

/-- Claim C7 witness: the amended order theorem at two concrete calls. -/
theorem creation_newest_first_witness :
    (mkCall "c1" []).id ≠ (mkCall "c2" []).id ∧
    handleEvent (SSEEvent.call_created (mkCall "c1" []))
        (handleEvent (SSEEvent.call_created (mkCall "c2" [])) []) =
      [mkCall "c1" [], mkCall "c2" []] :=
  ⟨by decide,
   creation_newest_first (mkCall "c1" []) (mkCall "c2" []) (by decide)⟩

/-- Claim C8 counterexample: a `summary_update` addressed to a present
call leaves the store byte-for-byte unchanged; in particular the
summary is not set to the event's value. -/
theorem summaryUpdate_ignored_cex :
    handleEvent (SSEEvent.summary_update "c1" "UPDATED")
        [mkCall "c1" [mCaller]] = [mkCall "c1" [mCaller]] ∧
    (mkCall "c1" [mCaller]).summary ≠ "UPDATED" := by decide

/-- Claim C8 (amended): the event handler has no `summary_update`
branch — applying a `summary_update` leaves the snapshot completely
unchanged, so no field (the `summary` included) is patched. -/
theorem summaryUpdate_noop (prev : List Call) (cid s : String) :
    handleEvent (SSEEvent.summary_update cid s) prev = prev ∧
    (handleEvent (SSEEvent.summary_update cid s) prev).map Call.summary =
      prev.map Call.summary :=
  ⟨rfl, rfl⟩

/-- Claim C10: whenever a `transcript_update` includes a
`locationLabel`, the matching call's `address` is set to that same
value (although `address` is not an event field); when `locationLabel`
is absent the `address` is left unchanged, and non-matching calls keep
their `address`. -/
theorem locationLabel_sets_address (prev : List Call) (cid : String)
    (t : List TranscriptMessage) (st : String) (ai : Bool)
    (pr it : Option String) (ll : Option String) (pn : Option Pin)
    (cf : Option Int) :
    List.Forall₂
      (fun c c' =>
        c'.address = if c.id = cid then ll.getD c.address else c.address)
      prev
      (handleEvent (SSEEvent.transcript_update cid t st ai pr it ll pn cf)
        prev) := by
  simp only [handleEvent]
  refine forall₂_self_map _ _ prev ?_
  intro c _
  by_cases hc : c.id = cid
  · simp [hc, transcriptPatch_eq]
  · simp [hc]

/-! ### Claims about the transcript revealer -/

/-- Claim C2: when the observed call matches the tracked id, the new
transcript has length at least 2 with an `ai` first message, and both
the recorded `visibleCount` and the previously recorded transcript
length are exactly 1, the revealer resets `visibleCount` to 0; the
subsequent reveal then shows index 0 first again (after one tick the
visible slice is exactly the first message). -/
theorem introReplace_resets_reveal (s : RevealState) (call : Call)
    (hid : s.prevCallId = some call.id)
    (hlen : 2 ≤ call.transcript.length)
    (hfs : firstSender call.transcript = some Sender.ai)
    (hvc : s.visibleCount = 1)
    (hpl : s.prevTranscriptLen = 1) :
    (observeCall s call).visibleCount = 0 ∧
    visibleSlice (revealTick (observeCall s call) call.transcript.length)
        call.transcript = call.transcript.take 1 := by
  have hcond : introReplaceCond s call := ⟨hlen, hfs, hvc, hpl⟩
  have hobs : observeCall s call =
      { visibleCount := 0, prevCallId := some call.id,
        prevTranscriptLen := call.transcript.length } := by
    unfold observeCall
    rw [if_neg (by simp [hid]), if_pos hcond]
  refine ⟨by rw [hobs], ?_⟩
  rw [hobs]
  unfold revealTick
  rw [if_neg (show ¬ (call.transcript.length ≤ 0) by omega)]
  have hmin : min (0 + 1) call.transcript.length = 1 :=
    Nat.min_eq_left (by omega)
  simp [visibleSlice, hmin]

/-- Claim C2 witness: the reset at a concrete state and call: a
tracked one-message state observing the two-message transcript
`[mAi, mCaller]`. -/
theorem introReplace_resets_reveal_witness :
    (observeCall
        { visibleCount := 1, prevCallId := some "c1", prevTranscriptLen := 1 }
        (mkCall "c1" [mAi, mCaller])).visibleCount = 0 ∧
    visibleSlice
        (revealTick
          (observeCall
            { visibleCount := 1, prevCallId := some "c1",
              prevTranscriptLen := 1 }
            (mkCall "c1" [mAi, mCaller]))
          (mkCall "c1" [mAi, mCaller]).transcript.length)
        (mkCall "c1" [mAi, mCaller]).transcript =
      (mkCall "c1" [mAi, mCaller]).transcript.take 1 :=
  introReplace_resets_reveal
    { visibleCount := 1, prevCallId := some "c1", prevTranscriptLen := 1 }
    (mkCall "c1" [mAi, mCaller]) rfl (by decide) rfl rfl rfl

/-- State used by the transcript-shrink scenario: two messages were
tracked and revealed before the transcript shrank to one. -/
def shrinkState : RevealState :=
  { visibleCount := 2, prevCallId := some "c1", prevTranscriptLen := 2 }

/-- Claim C5 counterexample: when the tracked call's transcript
shrinks from 2 to 1 (no replacement trigger fires), neither the
observation effect nor a tick clamps `visibleCount` down — it stays at
2, exceeding the current transcript length 1, so the claimed
clamp-down does not happen. -/
theorem reveal_no_clamp_on_shrink_cex :
    (observeCall shrinkState (mkCall "c1" [mCaller])).visibleCount = 2 ∧
    (revealTick (observeCall shrinkState (mkCall "c1" [mCaller]))
        (mkCall "c1" [mCaller]).transcript.length).visibleCount = 2 ∧
    ¬ ((2 : Nat) ≤ (mkCall "c1" [mCaller]).transcript.length) := by decide

/-- Claim C5 (amended): for a fixed tracked call with no
replacement trigger, `visibleCount` is non-decreasing: a tick
increments it by exactly 1 while it is behind the transcript length,
does nothing once caught up, and preserves the bound
`visibleCount ≤ length` whenever that bound already holds; observing
the same call without the trigger leaves `visibleCount` unchanged —
in particular, if the transcript shrinks below `visibleCount` the
counter is left where it was, not clamped down to the new length. -/
theorem reveal_monotone (s : RevealState) (len : Nat) :
    s.visibleCount ≤ (revealTick s len).visibleCount ∧
    (s.visibleCount < len →
      (revealTick s len).visibleCount = s.visibleCount + 1) ∧
    (len ≤ s.visibleCount → revealTick s len = s) ∧
    (s.visibleCount ≤ len → (revealTick s len).visibleCount ≤ len) ∧
    (∀ call, s.prevCallId = some call.id → ¬ introReplaceCond s call →
      (observeCall s call).visibleCount = s.visibleCount) := by
  refine ⟨?_, ?_, ?_, ?_, ?_⟩
  · unfold revealTick
    split_ifs with h
    · exact le_refl _
    · exact le_min (Nat.le_succ _) (Nat.le_of_not_le h)
  · intro hlt
    unfold revealTick
    rw [if_neg (by omega)]
    show min (s.visibleCount + 1) len = s.visibleCount + 1
    exact Nat.min_eq_left (by omega)
  · intro hle
    unfold revealTick
    rw [if_pos hle]
  · intro hle
    unfold revealTick
    split_ifs with h
    · exact hle
    · exact min_le_right _ _
  · intro call hid hcond
    unfold observeCall
    rw [if_neg (by simp [hid]), if_neg hcond]

/-- Claim C5 witness: the amended monotonicity facts at a concrete
state (counter 2, target length 4) and at a concrete shrink
observation. -/
theorem reveal_monotone_witness :
    (revealTick shrinkState 4).visibleCount = 3 ∧
    (revealTick shrinkState 4).visibleCount ≤ 4 ∧
    (observeCall shrinkState (mkCall "c1" [mCaller])).visibleCount = 2 :=
  ⟨(reveal_monotone shrinkState 4).2.1 (by decide),
   (reveal_monotone shrinkState 4).2.2.2.1 (by decide),
   (reveal_monotone shrinkState 4).2.2.2.2 (mkCall "c1" [mCaller]) rfl
     (by decide)⟩

end Dispatch
